import Mathlib

/- Formal model of the dl-brainstem repository: the two Python driver scripts
   pipeline_mdgru.py and pipeline_nnunet.py wrap external brainstem
   segmentation predictors with orientation, spacing and file bookkeeping.
   Python strings are modelled as lists of characters, floating point
   quantities as rational numbers, and the external imaging libraries
   (nibabel, SimpleITK) by their documented effect on image metadata, with
   the numeric interpolation kernel kept as an explicit parameter. -/

namespace Brainstem

/-- Model of a Python string: a list of characters. -/
abbrev PyStr := List Char

/-- Characters of the extension .nii.gz (7 characters). -/
def niigzExt : PyStr := ".nii.gz".data

/-- Characters of the extension .nii (4 characters). -/
def niiExt : PyStr := ".nii".data

/-- Replacement text _temp used for the MD-GRU temporary folder name. -/
def tempTxt : PyStr := "_temp".data

/-- Replacement text _temp- used for the nnU-Net temporary folder name. -/
def tempDashTxt : PyStr := "_temp-".data

/-- Characters of the modality tagged extension _0000.nii.gz (12 characters). -/
def mod0000niigz : PyStr := "_0000.nii.gz".data

/-- Characters of the modality tagged extension _0000.nii (9 characters). -/
def mod0000nii : PyStr := "_0000.nii".data

/-- Alphabet string.ascii_lowercase + string.digits from which the nnU-Net
driver draws its random 8 character workspace tag. -/
def randAlphabet : PyStr := "abcdefghijklmnopqrstuvwxyz0123456789".data

/-- Predicate describing any possible value of the expression
random.choices(string.ascii_lowercase + string.digits, k=8) joined to a
string, as in pipeline_nnunet.py line 95. -/
def validRandTag (r : PyStr) : Prop :=
  r.length = 8 ∧ ∀ c ∈ r, c ∈ randAlphabet

/-- Model of the Python call re.sub with the anchored pattern
\.nii(\.gz)?$ and replacement repl, applied to s: the regular expression
matches a final .nii.gz (the optional group is greedy) or, failing that, a
final .nii, and the match is replaced by repl; with no match s is returned
unchanged. Used at pipeline_mdgru.py lines 141, 259, 292 and
pipeline_nnunet.py lines 96, 172, 205. -/
def sub_nii_ext (repl s : PyStr) : PyStr :=
  if niigzExt.isSuffixOf s then s.take (s.length - niigzExt.length) ++ repl
  else if niiExt.isSuffixOf s then s.take (s.length - niiExt.length) ++ repl
  else s

/-- Temporary workspace path of the MD-GRU driver, from pipeline_mdgru.py
line 141: dirTemp = re.sub with pattern \.nii(\.gz)?$ and replacement _temp
applied to the output path. -/
def dirTemp_mdgru (brainstem_mask : PyStr) : PyStr :=
  sub_nii_ext tempTxt brainstem_mask

/-- Temporary workspace path of the nnU-Net driver, from pipeline_nnunet.py
lines 95 and 96: the replacement is _temp- followed by the 8 character random
tag strRand. -/
def dirTemp_nnunet (brainstem_mask strRand : PyStr) : PyStr :=
  sub_nii_ext (tempDashTxt ++ strRand) brainstem_mask

/-- Error message text of isNIfTI. -/
def errNotNiftiTxt : PyStr :=
  "File path does not exist or is not compressed NIfTI. Please check: ".data

/-- Model of isNIfTI from pipeline_mdgru.py lines 250 to 256 and
pipeline_nnunet.py lines 163 to 169. The file system is modelled by the
predicate isfile, standing for os.path.isfile. -/
def isNIfTI (isfile : PyStr → Bool) (s : PyStr) : Except PyStr PyStr :=
  if isfile s && niigzExt.isSuffixOf s then Except.ok s
  else if isfile (s ++ niigzExt) then Except.ok (s ++ niigzExt)
  else Except.error (errNotNiftiTxt ++ s)

/-- Expected label map path of the nnU-Net predictor, from
pipeline_nnunet.py line 80: re.sub with anchored pattern _0000(\.nii(\.gz)?)$
and replacement .nii.gz applied to the input path. -/
def nnunet_labelmap_name (t1 : PyStr) : PyStr :=
  if mod0000niigz.isSuffixOf t1 then t1.take (t1.length - mod0000niigz.length) ++ niigzExt
  else if mod0000nii.isSuffixOf t1 then t1.take (t1.length - mod0000nii.length) ++ niigzExt
  else t1

/-- Anatomical axis codes as computed by nib.aff2axcodes: one of Right,
Left, Anterior, Posterior, Superior, Inferior per voxel axis. -/
inductive AxCode
  | R
  | L
  | A
  | P
  | S
  | I
deriving DecidableEq

/-- NIfTI transform codes used by nibabel set_qform and set_sform. -/
inductive XformCode
  | unknown
  | scanner
  | aligned
  | talairach
  | mni
deriving DecidableEq

/-- Affine matrix with 3 rows and 4 columns of rational entries, the voxel
to world transform of a NIfTI header. -/
structure Affine where
  m00 : ℚ
  m01 : ℚ
  m02 : ℚ
  m03 : ℚ
  m10 : ℚ
  m11 : ℚ
  m12 : ℚ
  m13 : ℚ
  m20 : ℚ
  m21 : ℚ
  m22 : ℚ
  m23 : ℚ
deriving DecidableEq

/-- Header level model of a nibabel image as the drivers use it: the axis
codes nib.aff2axcodes derives from the affine, the per axis zooms, the sform
and qform affines with their codes, the on disk scale and intercept exposed
by dataobj, and the explicitly stored header scale and intercept pair. -/
structure NiftiImage where
  axcodes : AxCode × AxCode × AxCode
  zooms : ℚ × ℚ × ℚ
  sform : Affine
  sformCode : XformCode
  qform : Option Affine
  qformCode : XformCode
  slope : ℚ
  inter : ℚ
  hdrSlopeInter : Option (ℚ × ℚ)

/-- Geometry of the external nibabel reorientation, kept as parameters: the
affine and zooms that nib.as_closest_canonical computes for the reoriented
copy. The drivers never inspect these values, so any choice is admissible. -/
structure NibabelModel where
  canonAffine : NiftiImage → Affine
  canonZooms : NiftiImage → ℚ × ℚ × ℚ

/-- Model of the external library call nib.as_closest_canonical: the result
is a pure axis permutation and flip of the input whose axis codes are
(R, A, S); as noted in the driver comment at pipeline_mdgru.py line 165 the
call deletes the qform. The reoriented affine and zooms come from the
NibabelModel parameter. -/
def as_closest_canonical (nb : NibabelModel) (nii : NiftiImage) : NiftiImage :=
  { nii with
    axcodes := (AxCode.R, AxCode.A, AxCode.S)
    zooms := nb.canonZooms nii
    sform := nb.canonAffine nii
    qform := none }

/-- Model of nibabel set_qform with an affine argument and a code. -/
def set_qform (nii : NiftiImage) (aff : Affine) (code : XformCode) : NiftiImage :=
  { nii with qform := some aff, qformCode := code }

/-- Model of nibabel header.set_slope_inter. -/
def set_slope_inter (nii : NiftiImage) (sl it : ℚ) : NiftiImage :=
  { nii with hdrSlopeInter := some (sl, it) }

/-- Orientation check and correction step of the MD-GRU driver,
pipeline_mdgru.py lines 160 to 171: when the axis codes differ from both
(R, A, S) and (L, A, S), reorient with as_closest_canonical, write the sform
into the deleted qform with code aligned, re-store a unity scale and
intercept pair when the input had one, and flag the reorientation; otherwise
leave the image alone and flag false. -/
def orient_step_mdgru (nb : NibabelModel) (nii : NiftiImage) : NiftiImage × Bool :=
  let axcodes := nii.axcodes
  if axcodes ≠ (AxCode.R, AxCode.A, AxCode.S) ∧ axcodes ≠ (AxCode.L, AxCode.A, AxCode.S) then
    let niiRAS := as_closest_canonical nb nii
    let niiRAS := set_qform niiRAS niiRAS.sform XformCode.aligned
    let niiRAS := if nii.slope = 1 ∧ nii.inter = 0 then set_slope_inter niiRAS 1 0 else niiRAS
    (niiRAS, true)
  else
    (nii, false)

/-- Orientation check and correction step of the nnU-Net driver,
pipeline_nnunet.py lines 118 to 129; the code is character for character the
same as in the MD-GRU driver. -/
def orient_step_nnunet (nb : NibabelModel) (nii : NiftiImage) : NiftiImage × Bool :=
  let axcodes := nii.axcodes
  if axcodes ≠ (AxCode.R, AxCode.A, AxCode.S) ∧ axcodes ≠ (AxCode.L, AxCode.A, AxCode.S) then
    let niiRAS := as_closest_canonical nb nii
    let niiRAS := set_qform niiRAS niiRAS.sform XformCode.aligned
    let niiRAS := if nii.slope = 1 ∧ nii.inter = 0 then set_slope_inter niiRAS 1 0 else niiRAS
    (niiRAS, true)
  else
    (nii, false)

/-- Sampling grid of a SimpleITK image: size, spacing, direction cosine
matrix and origin, as configured on a sitk.ResampleImageFilter. -/
structure GridSpec where
  size : ℤ × ℤ × ℤ
  spacing : ℚ × ℚ × ℚ
  direction : (ℚ × ℚ × ℚ) × (ℚ × ℚ × ℚ) × (ℚ × ℚ × ℚ)
  origin : ℚ × ℚ × ℚ
deriving DecidableEq

/-- Voxel level model of a SimpleITK image: a grid and the sampled values
indexed by voxel coordinates. -/
structure SitkImage where
  grid : GridSpec
  data : ℤ × ℤ × ℤ → ℚ

/-- Interpolation kernel of sitk.ResampleImageFilter under the identity
transform, kept as a parameter: given the input image and the output grid it
yields the interpolated sample at each output voxel. The drivers select
sitk.sitkBSpline or sitk.sitkNearestNeighbor here; the kernel arithmetic
itself belongs to the external library. -/
abbrev Interp := SitkImage → GridSpec → ℤ × ℤ × ℤ → ℚ

/-- Model of numpy.round on a scalar: round half to even. -/
def npRound (q : ℚ) : ℤ :=
  if q - ⌊q⌋ < 1/2 then ⌊q⌋
  else if 1/2 < q - ⌊q⌋ then ⌊q⌋ + 1
  else if 2 ∣ ⌊q⌋ then ⌊q⌋ else ⌊q⌋ + 1

/-- Output grid assembled by change_spacing, pipeline_mdgru.py lines 38 to
50: each output extent is int(np.round(original_size * original_spacing /
out_spacing)) per axis, the output spacing is out_spacing, and direction and
origin are taken from the input image. -/
def out_grid (img : SitkImage) (out_spacing : ℚ × ℚ × ℚ) : GridSpec :=
  { size :=
      (npRound (img.grid.size.1 * (img.grid.spacing.1 / out_spacing.1)),
       npRound (img.grid.size.2.1 * (img.grid.spacing.2.1 / out_spacing.2.1)),
       npRound (img.grid.size.2.2 * (img.grid.spacing.2.2 / out_spacing.2.2)))
    spacing := out_spacing
    direction := img.grid.direction
    origin := img.grid.origin }

/-- Model of change_spacing from pipeline_mdgru.py lines 29 to 67: resample
the image onto the out_grid with the given kernel, then set every negative
sample to zero (arr[arr<0] = 0) and keep the grid of the resampled image via
CopyInformation. -/
def change_spacing (interp : Interp) (img : SitkImage) (out_spacing : ℚ × ℚ × ℚ) : SitkImage :=
  let g := out_grid img out_spacing
  let raw := interp img g
  { grid := g
    data := fun v => if raw v < 0 then 0 else raw v }

/-- Resolution check and correction step of the MD-GRU driver,
pipeline_mdgru.py lines 174 to 187: when any zoom is below 0.795 or above
1.205, reslice with change_spacing to 1 mm isotropic spacing using the
B-spline kernel and flag true, else do nothing and flag false. The zooms are
the first three zooms of the loaded input header. -/
def resolution_step_mdgru (interp : Interp) (zooms : ℚ × ℚ × ℚ) (img : SitkImage) :
    SitkImage × Bool :=
  if zooms.1 < 0.795 ∨ zooms.2.1 < 0.795 ∨ zooms.2.2 < 0.795 ∨
     zooms.1 > 1.205 ∨ zooms.2.1 > 1.205 ∨ zooms.2.2 > 1.205 then
    (change_spacing interp img (1, 1, 1), true)
  else
    (img, false)

/-- Per voxel label accumulation of the resliced branch of the MD-GRU
driver, pipeline_mdgru.py lines 205 to 220: the loop over iL in range(1, 4)
starts with arrL = (arr1 >= 0.5) * 1 and then executes arrL[arr >= 0.5] = iL
for iL = 2 and iL = 3, so later classes overwrite earlier ones. The
arguments are the three resampled probability channels. -/
def threshold_accumulate (arr1 arr2 arr3 : ℤ × ℤ × ℤ → ℚ) : ℤ × ℤ × ℤ → ℕ :=
  let arrL := fun v => if (0.5 : ℚ) ≤ arr1 v then 1 else 0
  let arrL := fun v => if (0.5 : ℚ) ≤ arr2 v then 2 else arrL v
  let arrL := fun v => if (0.5 : ℚ) ≤ arr3 v then 3 else arrL v
  arrL

/-- Statement of the specification, for comparison with the code: the label
assigned at a voxel is the highest indexed class among 1, 2, 3 whose
probability is at least 0.5, and 0 when no class qualifies. -/
def spec_highest_class (p1 p2 p3 : ℚ) : ℕ :=
  if (0.5 : ℚ) ≤ p3 then 3
  else if (0.5 : ℚ) ≤ p2 then 2
  else if (0.5 : ℚ) ≤ p1 then 1
  else 0

/-- Output volume data types appearing in the drivers. -/
inductive Dtype
  | uint8
  | float32
  | other
deriving DecidableEq

/-- Saved NIfTI volume as produced by the final save of the resliced
branch: voxel data, the declared on disk data type and the stored header
scale and intercept pair. -/
structure SavedNifti where
  data : ℤ × ℤ × ℤ → ℕ
  dtype : Dtype
  hdrSlopeInter : Option (ℚ × ℚ)

/-- Model of the final save of the resliced branch, pipeline_mdgru.py lines
224 to 227: build a Nifti1Image from the accumulated labels, set the data
type to uint8 and the header scale and intercept to (1, 0), then save. -/
def save_label_map (arrL : ℤ × ℤ × ℤ → ℕ) : SavedNifti :=
  { data := arrL
    dtype := Dtype.uint8
    hdrSlopeInter := some (1, 0) }

/-- Result of subprocess.run with stderr redirected into stdout: the exit
status and the captured combined output. -/
structure ProcResult where
  returncode : ℤ
  stdout : PyStr

/-- Header line printed before the captured output on the failure path. -/
def stdoutHdrTxt : PyStr := "STDOUT/STDERR:".data

/-- Error message raised when the MD-GRU process exits with a non zero
status. -/
def mdgruErrTxt : PyStr :=
  "ERROR during call of MD-GRU command! For stdout/stderr of the command see above!".data

/-- Error message raised when the nnU-Net process exits with a non zero
status. -/
def nnunetErrTxt : PyStr :=
  "ERROR during call of nnU-Net command! For stdout/stderr of the command see above!".data

/-- Announcement line printed before the MD-GRU command string. -/
def callingMdgruTxt : PyStr := "Calling MD-GRU command:".data

/-- Announcement line printed before the nnU-Net command string. -/
def callingNnunetTxt : PyStr := "Calling nnU-Net command:".data

/-- Fixed probability volume file name produced by the MD-GRU tool. -/
def mdgruProbdistName : PyStr := "mdgru-probdist.nii.gz".data

/-- Fixed label map file name produced by the MD-GRU tool. -/
def mdgruLabelsName : PyStr := "mdgru-labels.nii.gz".data

/-- Separator character used by os.path.join. -/
def pathSep : Char := '/'

/-- Model of os.path.join for a directory and a file name. -/
def path_join (d f : PyStr) : PyStr := d ++ (pathSep :: f)

/-- Model of mdgru_prediction from pipeline_mdgru.py lines 94 to 128. The
opaque external process is summarised by its ProcResult; the command string
echo is not modelled beyond its announcement line. Returns the list of
printed lines and either the raised error message or the pair of expected
output paths (probdist, labelmap) from lines 125 to 128. -/
def mdgru_prediction (verbose : Bool) (pr : ProcResult) (dir_input : PyStr) :
    List PyStr × Except PyStr (PyStr × PyStr) :=
  let pre := if verbose then [callingMdgruTxt] else []
  if pr.returncode ≠ 0 then
    (pre ++ [stdoutHdrTxt, pr.stdout], Except.error mdgruErrTxt)
  else
    (pre ++ (if verbose then [pr.stdout] else []),
     Except.ok (path_join dir_input mdgruProbdistName, path_join dir_input mdgruLabelsName))

/-- Model of nnunet_prediction from pipeline_nnunet.py lines 54 to 82: same
error handling as the MD-GRU variant; on success the expected label map path
is the input path with its modality tag _0000 removed, line 80. -/
def nnunet_prediction (verbose : Bool) (pr : ProcResult) (t1 : PyStr) :
    List PyStr × Except PyStr PyStr :=
  let pre := if verbose then [callingNnunetTxt] else []
  if pr.returncode ≠ 0 then
    (pre ++ [stdoutHdrTxt, pr.stdout], Except.error nnunetErrTxt)
  else
    (pre ++ (if verbose then [pr.stdout] else []),
     Except.ok (nnunet_labelmap_name t1))

/-- Observable file system effects of a driver run, in program order. -/
inductive Ev
  | rmExistingTemp
  | mkdirTemp
  | copyInput
  | normalizeHeader
  | saveReoriented
  | resliceInput
  | runPredictor
  | writeOutput
  | rmTemp
deriving DecidableEq

/-- Errors a driver run can raise after argument parsing. -/
inductive RunError
  | collision
  | predictorFailed
deriving DecidableEq

/-- Effect trace of pipeline_mdgru, lines 130 to 247, as a function of the
run conditions: whether the derived temporary folder already exists, the two
transform flags, and whether the external predictor exits with status zero.
A raised exception stops the trace, so on predictor failure neither the
output write of lines 227, 234 or 241 nor the cleanup of line 245 runs. -/
def pipeline_mdgru_trace (tempExists reorient reslice predOk : Bool) :
    List Ev × Option RunError :=
  let evs := (if tempExists then [Ev.rmExistingTemp] else []) ++
             [Ev.mkdirTemp, Ev.copyInput, Ev.normalizeHeader] ++
             (if reorient then [Ev.saveReoriented] else []) ++
             (if reslice then [Ev.resliceInput] else []) ++
             [Ev.runPredictor]
  if predOk then
    (evs ++ [Ev.writeOutput, Ev.rmTemp], none)
  else
    (evs, some RunError.predictorFailed)

/-- Effect trace of pipeline_nnunet, lines 84 to 160: as for MD-GRU but with
no reslice step, since the resolution is only reported there. -/
def pipeline_nnunet_trace (tempExists reorient predOk : Bool) :
    List Ev × Option RunError :=
  let evs := (if tempExists then [Ev.rmExistingTemp] else []) ++
             [Ev.mkdirTemp, Ev.copyInput, Ev.normalizeHeader] ++
             (if reorient then [Ev.saveReoriented] else []) ++
             [Ev.runPredictor]
  if predOk then
    (evs ++ [Ev.writeOutput, Ev.rmTemp], none)
  else
    (evs, some RunError.predictorFailed)

/-- Effect trace of the MD-GRU driver entry point after argument parsing,
pipeline_mdgru.py lines 296 to 301: when the output path exists and the
overwrite flag is absent, a ValueError is raised before pipeline_mdgru is
called, so no effect happens at all; otherwise the pipeline runs. -/
def main_mdgru_trace (outExists overwrite tempExists reorient reslice predOk : Bool) :
    List Ev × Option RunError :=
  if outExists && !overwrite then ([], some RunError.collision)
  else pipeline_mdgru_trace tempExists reorient reslice predOk

/-- Effect trace of the nnU-Net driver entry point after argument parsing,
pipeline_nnunet.py lines 209 to 214. -/
def main_nnunet_trace (outExists overwrite tempExists reorient predOk : Bool) :
    List Ev × Option RunError :=
  if outExists && !overwrite then ([], some RunError.collision)
  else pipeline_nnunet_trace tempExists reorient predOk

/-- Identity affine fixture for concrete evaluations. -/
def affine0 : Affine := ⟨1, 0, 0, 0, 0, 1, 0, 0, 0, 0, 1, 0⟩

/-- Alternative affine fixture, distinct from affine0. -/
def affine1 : Affine := ⟨0, 1, 0, 0, 1, 0, 0, 0, 0, 0, 1, 5⟩

/-- Concrete nibabel geometry fixture: the reoriented affine is affine1 and
the zooms are carried over. -/
def nb0 : NibabelModel :=
  { canonAffine := fun _ => affine1
    canonZooms := fun nii => nii.zooms }

/-- Concrete image fixture with axis codes (P, S, L), unity slope and zero
intercept. -/
def niiPSL : NiftiImage :=
  { axcodes := (AxCode.P, AxCode.S, AxCode.L)
    zooms := (1, 1, 1)
    sform := affine0
    sformCode := XformCode.scanner
    qform := some affine0
    qformCode := XformCode.scanner
    slope := 1
    inter := 0
    hdrSlopeInter := some (1, 0) }

/-- Concrete image fixture with axis codes (L, A, S). -/
def niiLAS : NiftiImage :=
  { niiPSL with axcodes := (AxCode.L, AxCode.A, AxCode.S) }

/-- Concrete SimpleITK grid fixture with half millimetre spacing. -/
def grid0 : GridSpec :=
  { size := (10, 10, 10)
    spacing := (1/2, 1/2, 1/2)
    direction := ((1, 0, 0), (0, 1, 0), (0, 0, 1))
    origin := (0, 0, 0) }

/-- Concrete SimpleITK image fixture on grid0. -/
def img0 : SitkImage :=
  { grid := grid0
    data := fun _ => 0 }

/-- Concrete interpolation kernel fixture, constantly minus one. -/
def interp0 : Interp := fun _ _ _ => -1

/-- Concrete failing process result fixture. -/
def prFail : ProcResult := { returncode := 1, stdout := "failure log".data }

/-- Concrete succeeding process result fixture. -/
def prOk : ProcResult := { returncode := 0, stdout := "done".data }

/-- Concrete output path stem fixture. -/
def stemFix : PyStr := "/data/subject1_brainstem".data

/-- Concrete input directory fixture. -/
def dirFix : PyStr := "/data/sub1_temp".data

/-- Concrete random tag fixture. -/
def tagA : PyStr := "aaaaaaaa".data

/-- Concrete random tag fixture distinct from tagA. -/
def tagB : PyStr := "0b1c2d3e".data

/-- Concrete uncompressed NIfTI path fixture. -/
def t1niiFix : PyStr := "/data/t1.nii".data

/-- Concrete file system fixture containing exactly the file t1niiFix. -/
def fs0 : PyStr → Bool := fun s => s == t1niiFix

/-- Helper: a list is a Boolean suffix of anything it is appended to. -/
theorem isSuffixOf_append_self (a b : PyStr) : b.isSuffixOf (a ++ b) = true := by
  have h : b <:+ a ++ b := List.suffix_append a b
  rw [← List.isSuffixOf_iff_suffix] at h
  exact h

/-- Helper: a path obtained by appending .nii never ends in .nii.gz. -/
theorem niigz_not_suffixOf_append_nii (a : PyStr) :
    niigzExt.isSuffixOf (a ++ niiExt) = false := by
  cases hb : niigzExt.isSuffixOf (a ++ niiExt) with
  | false => rfl
  | true =>
    exfalso
    have h1 : niigzExt <:+ a ++ niiExt := List.isSuffixOf_iff_suffix.mp hb
    have h2 : niiExt <:+ a ++ niiExt := List.suffix_append a niiExt
    rcases List.suffix_or_suffix_of_suffix h1 h2 with h3 | h3
    · exact (by decide : ¬ (niigzExt <:+ niiExt)) h3
    · exact (by decide : ¬ (niiExt <:+ niigzExt)) h3

/-- Helper: a path ending in .nii does not end in .nii.gz. -/
theorem nii_suffixOf_not_niigz {s : PyStr} (h : niiExt.isSuffixOf s = true) :
    niigzExt.isSuffixOf s = false := by
  cases hb : niigzExt.isSuffixOf s with
  | false => rfl
  | true =>
    exfalso
    have h1 : niigzExt <:+ s := List.isSuffixOf_iff_suffix.mp hb
    have h2 : niiExt <:+ s := List.isSuffixOf_iff_suffix.mp h
    rcases List.suffix_or_suffix_of_suffix h1 h2 with h3 | h3
    · exact (by decide : ¬ (niigzExt <:+ niiExt)) h3
    · exact (by decide : ¬ (niiExt <:+ niigzExt)) h3

/-- Helper: taking everything but the appended tail returns the front. -/
theorem take_append_sub (a b : PyStr) :
    (a ++ b).take ((a ++ b).length - b.length) = a := by
  rw [List.length_append, Nat.add_sub_cancel]
  exact List.take_left a b

/-- Helper: substitution of the .nii.gz extension on a path that ends in
it. -/
theorem sub_nii_ext_append_niigz (repl stem : PyStr) :
    sub_nii_ext repl (stem ++ niigzExt) = stem ++ repl := by
  simp [sub_nii_ext, isSuffixOf_append_self, take_append_sub]

/-- Helper: substitution of the .nii extension on a path that ends in it. -/
theorem sub_nii_ext_append_nii (repl stem : PyStr) :
    sub_nii_ext repl (stem ++ niiExt) = stem ++ repl := by
  simp [sub_nii_ext, isSuffixOf_append_self, niigz_not_suffixOf_append_nii,
    take_append_sub]

/-- Helper: the half to even rounding of numpy yields a nearest integer. -/
theorem npRound_nearest (q : ℚ) (m : ℤ) :
    |(npRound q : ℚ) - q| ≤ |(m : ℚ) - q| := by
  have hf : (⌊q⌋ : ℚ) ≤ q := Int.floor_le q
  have hf1 : q < (⌊q⌋ : ℚ) + 1 := Int.lt_floor_add_one q
  have hmq : ((m : ℚ)) - q ≤ |(m : ℚ) - q| := le_abs_self _
  have hqm : q - (m : ℚ) ≤ |(m : ℚ) - q| := by
    rw [abs_sub_comm]
    exact le_abs_self _
  have hcase : (m : ℚ) ≤ (⌊q⌋ : ℚ) ∨ (⌊q⌋ : ℚ) + 1 ≤ (m : ℚ) := by
    rcases le_or_lt m ⌊q⌋ with h | h
    · exact Or.inl (by exact_mod_cast h)
    · exact Or.inr (by exact_mod_cast Int.add_one_le_iff.mpr h)
  unfold npRound
  split_ifs with h1 h2 h3
  · rw [abs_of_nonpos (by linarith)]
    rcases hcase with hm | hm
    · linarith
    · linarith
  · push_cast
    rw [abs_of_nonneg (by linarith)]
    rcases hcase with hm | hm
    · linarith
    · linarith
  · have heq : q - (⌊q⌋ : ℚ) = 1/2 := by
      have ha := not_lt.mp h1
      have hb := not_lt.mp h2
      linarith
    rw [abs_of_nonpos (by linarith)]
    rcases hcase with hm | hm
    · linarith
    · linarith
  · have heq : q - (⌊q⌋ : ℚ) = 1/2 := by
      have ha := not_lt.mp h1
      have hb := not_lt.mp h2
      linarith
    push_cast
    rw [abs_of_nonneg (by linarith)]
    rcases hcase with hm | hm
    · linarith
    · linarith

/-- C1: for every input image, the orientation canonicalization step leaves
the image unchanged with a false flag exactly when the axis codes equal
(R, A, S) or (L, A, S); for every other axis code tuple it produces a
reoriented image whose axis codes equal (R, A, S) together with a true
flag; and the step of the nnU-Net driver agrees with that of the MD-GRU
driver on every input. -/
theorem C1_orientation_canonicalizer (nb : NibabelModel) (nii : NiftiImage) :
    (orient_step_mdgru nb nii = (nii, false) ↔
      (nii.axcodes = (AxCode.R, AxCode.A, AxCode.S) ∨
       nii.axcodes = (AxCode.L, AxCode.A, AxCode.S))) ∧
    (nii.axcodes ≠ (AxCode.R, AxCode.A, AxCode.S) →
     nii.axcodes ≠ (AxCode.L, AxCode.A, AxCode.S) →
      (orient_step_mdgru nb nii).1.axcodes = (AxCode.R, AxCode.A, AxCode.S) ∧
      (orient_step_mdgru nb nii).2 = true) ∧
    orient_step_mdgru nb nii = orient_step_nnunet nb nii := by
  refine ⟨?_, ?_, rfl⟩
  · by_cases h : nii.axcodes ≠ (AxCode.R, AxCode.A, AxCode.S) ∧
        nii.axcodes ≠ (AxCode.L, AxCode.A, AxCode.S)
    · constructor
      · intro he
        exfalso
        have h2 : (orient_step_mdgru nb nii).2 = true := by
          simp only [orient_step_mdgru, if_pos h]
        rw [he] at h2
        exact Bool.false_ne_true h2
      · intro hor
        rcases hor with hor | hor
        · exact absurd hor h.1
        · exact absurd hor h.2
    · have hne : nii.axcodes = (AxCode.R, AxCode.A, AxCode.S) ∨
          nii.axcodes = (AxCode.L, AxCode.A, AxCode.S) := by
        by_contra hno
        push_neg at hno
        exact h ⟨hno.1, hno.2⟩
      constructor
      · intro _
        exact hne
      · intro _
        simp only [orient_step_mdgru, if_neg h]
  · intro h1 h2
    constructor
    · simp only [orient_step_mdgru, if_pos (And.intro h1 h2)]
      by_cases hs : nii.slope = 1 ∧ nii.inter = 0 <;>
        simp [hs, set_slope_inter, set_qform, as_closest_canonical]
    · simp only [orient_step_mdgru, if_pos (And.intro h1 h2)]

/-- Witness for C1 at concrete inputs: the fixture with axis codes
(L, A, S) passes through untouched, and the fixture with axis codes
(P, S, L) is reoriented to (R, A, S) with a true flag. -/
theorem C1_witness :
    orient_step_mdgru nb0 niiLAS = (niiLAS, false) ∧
    (orient_step_mdgru nb0 niiPSL).1.axcodes = (AxCode.R, AxCode.A, AxCode.S) ∧
    (orient_step_mdgru nb0 niiPSL).2 = true := by
  refine ⟨(C1_orientation_canonicalizer nb0 niiLAS).1.mpr (Or.inr rfl), ?_, ?_⟩
  · exact ((C1_orientation_canonicalizer nb0 niiPSL).2.1 (by decide) (by decide)).1
  · exact ((C1_orientation_canonicalizer nb0 niiPSL).2.1 (by decide) (by decide)).2

/-- C2: the spacing normalization step of the MD-GRU driver is a no-op
returning false exactly when every zoom lies in the closed interval from
0.795 to 1.205; when some zoom lies outside, the result is the reslice of
the image whose three spacing components all equal 1 and the flag is
true. -/
theorem C2_resolution_step (interp : Interp) (zooms : ℚ × ℚ × ℚ) (img : SitkImage) :
    (resolution_step_mdgru interp zooms img = (img, false) ↔
      ((0.795 : ℚ) ≤ zooms.1 ∧ zooms.1 ≤ 1.205 ∧
       (0.795 : ℚ) ≤ zooms.2.1 ∧ zooms.2.1 ≤ 1.205 ∧
       (0.795 : ℚ) ≤ zooms.2.2 ∧ zooms.2.2 ≤ 1.205)) ∧
    ((zooms.1 < 0.795 ∨ zooms.2.1 < 0.795 ∨ zooms.2.2 < 0.795 ∨
      zooms.1 > 1.205 ∨ zooms.2.1 > 1.205 ∨ zooms.2.2 > 1.205) →
      ((resolution_step_mdgru interp zooms img).1.grid.spacing = (1, 1, 1) ∧
       (resolution_step_mdgru interp zooms img).2 = true)) := by
  by_cases h : zooms.1 < 0.795 ∨ zooms.2.1 < 0.795 ∨ zooms.2.2 < 0.795 ∨
      zooms.1 > 1.205 ∨ zooms.2.1 > 1.205 ∨ zooms.2.2 > 1.205
  · constructor
    · constructor
      · intro he
        exfalso
        have h2 : (resolution_step_mdgru interp zooms img).2 = true := by
          simp only [resolution_step_mdgru, if_pos h]
        rw [he] at h2
        exact Bool.false_ne_true h2
      · intro hin
        exfalso
        rcases h with h | h | h | h | h | h <;> linarith [hin.1, hin.2.1,
          hin.2.2.1, hin.2.2.2.1, hin.2.2.2.2.1, hin.2.2.2.2.2]
    · intro _
      constructor
      · simp only [resolution_step_mdgru, if_pos h, change_spacing, out_grid]
      · simp only [resolution_step_mdgru, if_pos h]
  · push_neg at h
    obtain ⟨ha, hb, hc, hd, he2, hf⟩ := h
    have hcond : ¬ (zooms.1 < 0.795 ∨ zooms.2.1 < 0.795 ∨ zooms.2.2 < 0.795 ∨
        zooms.1 > 1.205 ∨ zooms.2.1 > 1.205 ∨ zooms.2.2 > 1.205) := by
      push_neg
      exact ⟨ha, hb, hc, hd, he2, hf⟩
    constructor
    · constructor
      · intro _
        exact ⟨ha, hd, hb, he2, hc, hf⟩
      · intro _
        simp only [resolution_step_mdgru, if_neg hcond]
    · intro hout
      exact absurd hout hcond

/-- Witness for C2 at concrete inputs: half millimetre zooms trigger the
reslice to unit spacing with a true flag. -/
theorem C2_witness :
    ((1/2 : ℚ) < 0.795 ∨ (1 : ℚ) < 0.795 ∨ (1 : ℚ) < 0.795 ∨
     (1/2 : ℚ) > 1.205 ∨ (1 : ℚ) > 1.205 ∨ (1 : ℚ) > 1.205) ∧
    (resolution_step_mdgru interp0 (1/2, 1, 1) img0).1.grid.spacing = (1, 1, 1) ∧
    (resolution_step_mdgru interp0 (1/2, 1, 1) img0).2 = true := by
  have h : ((1/2 : ℚ) < 0.795 ∨ (1 : ℚ) < 0.795 ∨ (1 : ℚ) < 0.795 ∨
      (1/2 : ℚ) > 1.205 ∨ (1 : ℚ) > 1.205 ∨ (1 : ℚ) > 1.205) := by
    left
    norm_num
  exact ⟨h, (C2_resolution_step interp0 (1/2, 1, 1) img0).2 h⟩

/-- C3: in the resliced branch of the MD-GRU driver the accumulated label
at every voxel equals the highest indexed class among 1, 2, 3 whose
resampled probability is at least 0.5, with 0 when none qualifies, and the
volume assembled from the accumulated labels is saved with data type uint8
and a stored unity scale and zero intercept. -/
theorem C3_threshold_accumulate (arr1 arr2 arr3 : ℤ × ℤ × ℤ → ℚ) (v : ℤ × ℤ × ℤ) :
    threshold_accumulate arr1 arr2 arr3 v =
      spec_highest_class (arr1 v) (arr2 v) (arr3 v) ∧
    (save_label_map (threshold_accumulate arr1 arr2 arr3)).dtype = Dtype.uint8 ∧
    (save_label_map (threshold_accumulate arr1 arr2 arr3)).hdrSlopeInter = some (1, 0) := by
  refine ⟨?_, rfl, rfl⟩
  simp only [threshold_accumulate, spec_highest_class]

/-- C4: on the reorientation branch of either driver the qform affine that
as_closest_canonical discards is restored on the result: the result carries
a qform again and it equals the result sform, which is the scanner anchored
affine the header normalizer established, carried through the reorientation
by the external library; moreover a unity scale and zero intercept pair is
stored on the result whenever the input exposed one. -/
theorem C4_reorient_restores_affine (nb : NibabelModel) (nii : NiftiImage)
    (h1 : nii.axcodes ≠ (AxCode.R, AxCode.A, AxCode.S))
    (h2 : nii.axcodes ≠ (AxCode.L, AxCode.A, AxCode.S)) :
    (as_closest_canonical nb nii).qform = none ∧
    (orient_step_mdgru nb nii).1.qform = some ((orient_step_mdgru nb nii).1.sform) ∧
    (nii.slope = 1 ∧ nii.inter = 0 →
      (orient_step_mdgru nb nii).1.hdrSlopeInter = some (1, 0)) ∧
    (orient_step_nnunet nb nii).1.qform = some ((orient_step_nnunet nb nii).1.sform) ∧
    (nii.slope = 1 ∧ nii.inter = 0 →
      (orient_step_nnunet nb nii).1.hdrSlopeInter = some (1, 0)) := by
  have hmn : orient_step_mdgru nb nii = orient_step_nnunet nb nii := rfl
  have hq : (orient_step_mdgru nb nii).1.qform =
      some ((orient_step_mdgru nb nii).1.sform) := by
    simp only [orient_step_mdgru, if_pos (And.intro h1 h2)]
    by_cases hs : nii.slope = 1 ∧ nii.inter = 0 <;>
      simp [hs, set_slope_inter, set_qform, as_closest_canonical]
  have hsl : nii.slope = 1 ∧ nii.inter = 0 →
      (orient_step_mdgru nb nii).1.hdrSlopeInter = some (1, 0) := by
    intro hs
    simp only [orient_step_mdgru, if_pos (And.intro h1 h2), if_pos hs]
    simp [set_slope_inter]
  exact ⟨rfl, hq, hsl, hmn ▸ hq, hmn ▸ hsl⟩

/-- Witness for C4 at a concrete input: the fixture with axis codes
(P, S, L), unity slope and zero intercept. -/
theorem C4_witness :
    niiPSL.axcodes ≠ (AxCode.R, AxCode.A, AxCode.S) ∧
    niiPSL.axcodes ≠ (AxCode.L, AxCode.A, AxCode.S) ∧
    (orient_step_mdgru nb0 niiPSL).1.qform =
      some ((orient_step_mdgru nb0 niiPSL).1.sform) ∧
    (orient_step_mdgru nb0 niiPSL).1.hdrSlopeInter = some (1, 0) := by
  have h := C4_reorient_restores_affine nb0 niiPSL (by decide) (by decide)
  exact ⟨by decide, by decide, h.2.1, h.2.2.1 (by decide)⟩

/-- C5: for every image passed through change_spacing at target spacing one,
each output extent is a nearest integer to the input extent times the input
spacing over one, the output direction and origin equal those of the input,
and each output sample is the interpolated sample with negative values
replaced by zero, hence nonnegative. -/
theorem C5_change_spacing_grid (interp : Interp) (img : SitkImage) :
    (∀ m : ℤ,
      |((change_spacing interp img (1, 1, 1)).grid.size.1 : ℚ) -
          (img.grid.size.1 : ℚ) * img.grid.spacing.1 / 1| ≤
        |(m : ℚ) - (img.grid.size.1 : ℚ) * img.grid.spacing.1 / 1|) ∧
    (∀ m : ℤ,
      |((change_spacing interp img (1, 1, 1)).grid.size.2.1 : ℚ) -
          (img.grid.size.2.1 : ℚ) * img.grid.spacing.2.1 / 1| ≤
        |(m : ℚ) - (img.grid.size.2.1 : ℚ) * img.grid.spacing.2.1 / 1|) ∧
    (∀ m : ℤ,
      |((change_spacing interp img (1, 1, 1)).grid.size.2.2 : ℚ) -
          (img.grid.size.2.2 : ℚ) * img.grid.spacing.2.2 / 1| ≤
        |(m : ℚ) - (img.grid.size.2.2 : ℚ) * img.grid.spacing.2.2 / 1|) ∧
    (change_spacing interp img (1, 1, 1)).grid.direction = img.grid.direction ∧
    (change_spacing interp img (1, 1, 1)).grid.origin = img.grid.origin ∧
    (∀ v, (change_spacing interp img (1, 1, 1)).data v =
      if interp img (out_grid img (1, 1, 1)) v < 0 then 0
      else interp img (out_grid img (1, 1, 1)) v) ∧
    (∀ v, 0 ≤ (change_spacing interp img (1, 1, 1)).data v) := by
  have hsz : ∀ (n : ℤ) (sp : ℚ), (n : ℚ) * (sp / 1) = (n : ℚ) * sp / 1 := by
    intro n sp
    ring
  refine ⟨?_, ?_, ?_, rfl, rfl, fun v => rfl, ?_⟩
  · intro m
    rw [← hsz img.grid.size.1 img.grid.spacing.1]
    exact npRound_nearest _ m
  · intro m
    rw [← hsz img.grid.size.2.1 img.grid.spacing.2.1]
    exact npRound_nearest _ m
  · intro m
    rw [← hsz img.grid.size.2.2 img.grid.spacing.2.2]
    exact npRound_nearest _ m
  · intro v
    simp only [change_spacing]
    split_ifs with h
    · exact le_refl 0
    · exact le_of_not_lt h

/-- C6: either prediction wrapper raises exactly when the external process
exits with a non zero status; on that path the captured combined output is
among the printed lines, and on the zero status path the expected output
paths are returned: the fixed probdist and labels names for MD-GRU and the
input name with the modality tag removed for nnU-Net. -/
theorem C6_external_predictor (verbose : Bool) (pr : ProcResult) (dir_input t1 : PyStr) :
    ((∃ e, (mdgru_prediction verbose pr dir_input).2 = Except.error e) ↔
      pr.returncode ≠ 0) ∧
    (pr.returncode ≠ 0 → pr.stdout ∈ (mdgru_prediction verbose pr dir_input).1) ∧
    (pr.returncode = 0 → (mdgru_prediction verbose pr dir_input).2 =
      Except.ok (path_join dir_input mdgruProbdistName,
                 path_join dir_input mdgruLabelsName)) ∧
    ((∃ e, (nnunet_prediction verbose pr t1).2 = Except.error e) ↔
      pr.returncode ≠ 0) ∧
    (pr.returncode ≠ 0 → pr.stdout ∈ (nnunet_prediction verbose pr t1).1) ∧
    (pr.returncode = 0 → (nnunet_prediction verbose pr t1).2 =
      Except.ok (nnunet_labelmap_name t1)) := by
  by_cases h : pr.returncode = 0
  · refine ⟨?_, ?_, ?_, ?_, ?_, ?_⟩
    · simp [mdgru_prediction, h]
    · intro hne
      exact absurd h hne
    · intro _
      simp [mdgru_prediction, h]
    · simp [nnunet_prediction, h]
    · intro hne
      exact absurd h hne
    · intro _
      simp [nnunet_prediction, h]
  · refine ⟨?_, ?_, ?_, ?_, ?_, ?_⟩
    · simp [mdgru_prediction, h]
    · intro _
      simp [mdgru_prediction, h]
    · intro h0
      exact absurd h0 h
    · simp [nnunet_prediction, h]
    · intro _
      simp [nnunet_prediction, h]
    · intro h0
      exact absurd h0 h

/-- Witness for C6 at concrete inputs: a failing process result prints its
captured output and yields an error, and a succeeding one returns the two
expected MD-GRU output paths. -/
theorem C6_witness :
    prFail.returncode ≠ 0 ∧
    prFail.stdout ∈ (mdgru_prediction true prFail dirFix).1 ∧
    prOk.returncode = 0 ∧
    (mdgru_prediction true prOk dirFix).2 =
      Except.ok (path_join dirFix mdgruProbdistName,
                 path_join dirFix mdgruLabelsName) := by
  have h := C6_external_predictor true prFail dirFix dirFix
  have h2 := C6_external_predictor true prOk dirFix dirFix
  exact ⟨by decide, h.2.1 (by decide), rfl, h2.2.2.1 rfl⟩

/-- C7: with an existing output path and no overwrite flag, either driver
raises the collision error and produces no effect at all, in particular no
temporary workspace; with the overwrite flag the collision error is never
raised; and the collision error occurs in no other situation. -/
theorem C7_output_collision (outExists overwrite tempExists reorient reslice predOk : Bool) :
    ((main_mdgru_trace outExists overwrite tempExists reorient reslice predOk).2 =
        some RunError.collision ↔ (outExists = true ∧ overwrite = false)) ∧
    (outExists = true → overwrite = false →
      main_mdgru_trace outExists overwrite tempExists reorient reslice predOk =
        ([], some RunError.collision)) ∧
    (overwrite = true →
      (main_mdgru_trace outExists overwrite tempExists reorient reslice predOk).2 ≠
        some RunError.collision) ∧
    ((main_nnunet_trace outExists overwrite tempExists reorient predOk).2 =
        some RunError.collision ↔ (outExists = true ∧ overwrite = false)) ∧
    (outExists = true → overwrite = false →
      main_nnunet_trace outExists overwrite tempExists reorient predOk =
        ([], some RunError.collision)) ∧
    (overwrite = true →
      (main_nnunet_trace outExists overwrite tempExists reorient predOk).2 ≠
        some RunError.collision) := by
  cases outExists <;> cases overwrite <;> cases tempExists <;>
    cases reorient <;> cases reslice <;> cases predOk <;> decide

/-- Witness for C7 at concrete inputs: with an existing output and no
overwrite flag both drivers stop with the collision error and an empty
effect trace, and with the overwrite flag no collision error occurs. -/
theorem C7_witness :
    main_mdgru_trace true false false false false true = ([], some RunError.collision) ∧
    (main_mdgru_trace true true false false false true).2 ≠ some RunError.collision ∧
    main_nnunet_trace true false false false true = ([], some RunError.collision) := by
  have h := C7_output_collision true false false false false true
  have h2 := C7_output_collision true true false false false true
  exact ⟨h.2.1 rfl rfl, h2.2.2.1 rfl, h.2.2.2.2.1 rfl rfl⟩

/-- C8: when the external predictor fails, either pipeline aborts with the
predictor error after having created the temporary workspace, without
writing the output and without removing the workspace; cleanup and the
output write happen only on the success path. -/
theorem C8_predictor_failure_leaves_workspace (tempExists reorient reslice : Bool) :
    (pipeline_mdgru_trace tempExists reorient reslice false).2 =
      some RunError.predictorFailed ∧
    Ev.mkdirTemp ∈ (pipeline_mdgru_trace tempExists reorient reslice false).1 ∧
    Ev.writeOutput ∉ (pipeline_mdgru_trace tempExists reorient reslice false).1 ∧
    Ev.rmTemp ∉ (pipeline_mdgru_trace tempExists reorient reslice false).1 ∧
    (pipeline_mdgru_trace tempExists reorient reslice true).2 = none ∧
    Ev.writeOutput ∈ (pipeline_mdgru_trace tempExists reorient reslice true).1 ∧
    Ev.rmTemp ∈ (pipeline_mdgru_trace tempExists reorient reslice true).1 ∧
    (pipeline_nnunet_trace tempExists reorient false).2 =
      some RunError.predictorFailed ∧
    Ev.mkdirTemp ∈ (pipeline_nnunet_trace tempExists reorient false).1 ∧
    Ev.writeOutput ∉ (pipeline_nnunet_trace tempExists reorient false).1 ∧
    Ev.rmTemp ∉ (pipeline_nnunet_trace tempExists reorient false).1 ∧
    (pipeline_nnunet_trace tempExists reorient true).2 = none ∧
    Ev.rmTemp ∈ (pipeline_nnunet_trace tempExists reorient true).1 := by
  cases tempExists <;> cases reorient <;> cases reslice <;> decide

/-- Witness for C8 at concrete inputs: on predictor failure the MD-GRU
pipeline keeps its created workspace and writes no output. -/
theorem C8_witness :
    Ev.mkdirTemp ∈ (pipeline_mdgru_trace false true true false).1 ∧
    Ev.writeOutput ∉ (pipeline_mdgru_trace false true true false).1 ∧
    Ev.rmTemp ∉ (pipeline_mdgru_trace false true true false).1 := by
  have h := C8_predictor_failure_leaves_workspace false true true
  exact ⟨h.2.1, h.2.2.1, h.2.2.2.1⟩

/-- C9: the MD-GRU workspace name is the output path with its .nii or
.nii.gz extension replaced by _temp, a function of the output path alone, so
equal output paths always give the identical name; the nnU-Net workspace
name appends _temp- followed by the 8 character random tag, and two distinct
valid tags give distinct names for the same output path, so the name is not
determined by the output path alone. -/
theorem C9_workspace_naming (stem r : PyStr) :
    dirTemp_mdgru (stem ++ niigzExt) = stem ++ tempTxt ∧
    dirTemp_mdgru (stem ++ niiExt) = stem ++ tempTxt ∧
    (validRandTag r → dirTemp_nnunet (stem ++ niigzExt) r = stem ++ tempDashTxt ++ r) ∧
    (∃ r1 r2, validRandTag r1 ∧ validRandTag r2 ∧
      dirTemp_nnunet (stem ++ niigzExt) r1 ≠ dirTemp_nnunet (stem ++ niigzExt) r2) := by
  have h3 : ∀ rr : PyStr,
      dirTemp_nnunet (stem ++ niigzExt) rr = stem ++ tempDashTxt ++ rr := by
    intro rr
    have h := sub_nii_ext_append_niigz (tempDashTxt ++ rr) stem
    rw [← List.append_assoc] at h
    exact h
  refine ⟨sub_nii_ext_append_niigz tempTxt stem, sub_nii_ext_append_nii tempTxt stem,
    fun _ => h3 r, ⟨tagA, tagB, ?_, ?_, ?_⟩⟩
  · unfold validRandTag
    decide
  · unfold validRandTag
    decide
  · rw [h3 tagA, h3 tagB]
    intro heq
    exact (by decide : tagA ≠ tagB) (List.append_cancel_left heq)

/-- Witness for C9 at concrete inputs: the fixture stem with both
extensions, and the two concrete valid random tags. -/
theorem C9_witness :
    dirTemp_mdgru (stemFix ++ niigzExt) = stemFix ++ tempTxt ∧
    dirTemp_mdgru (stemFix ++ niiExt) = stemFix ++ tempTxt ∧
    validRandTag tagA ∧
    dirTemp_nnunet (stemFix ++ niigzExt) tagA = stemFix ++ tempDashTxt ++ tagA := by
  have h := C9_workspace_naming stemFix tagA
  have hv : validRandTag tagA := by
    unfold validRandTag
    decide
  exact ⟨h.1, h.2.1, hv, h.2.2.1 hv⟩

/-- C10: the input validator accepts an existing path ending in .nii.gz
unchanged; otherwise, when the path with .nii.gz appended exists, it returns
that completed path; otherwise it raises the argument type error. In
particular an existing path ending in .nii is rejected when no completed
sibling exists. -/
theorem C10_isNIfTI (isfile : PyStr → Bool) (s : PyStr) :
    (isfile s = true → niigzExt.isSuffixOf s = true →
      isNIfTI isfile s = Except.ok s) ∧
    (¬(isfile s = true ∧ niigzExt.isSuffixOf s = true) →
      isfile (s ++ niigzExt) = true →
      isNIfTI isfile s = Except.ok (s ++ niigzExt)) ∧
    (¬(isfile s = true ∧ niigzExt.isSuffixOf s = true) →
      isfile (s ++ niigzExt) = false →
      isNIfTI isfile s = Except.error (errNotNiftiTxt ++ s)) ∧
    (niiExt.isSuffixOf s = true → isfile s = true → isfile (s ++ niigzExt) = false →
      isNIfTI isfile s = Except.error (errNotNiftiTxt ++ s)) := by
  refine ⟨?_, ?_, ?_, ?_⟩
  · intro hf hsuf
    simp [isNIfTI, hf, hsuf]
  · intro hn hf2
    have hcond : (isfile s && niigzExt.isSuffixOf s) = false := by
      cases hfs : isfile s <;> cases hsf : niigzExt.isSuffixOf s <;> simp_all
    simp [isNIfTI, hcond, hf2]
  · intro hn hf2
    have hcond : (isfile s && niigzExt.isSuffixOf s) = false := by
      cases hfs : isfile s <;> cases hsf : niigzExt.isSuffixOf s <;> simp_all
    simp [isNIfTI, hcond, hf2]
  · intro hsuf hf hf2
    have hgz := nii_suffixOf_not_niigz hsuf
    simp [isNIfTI, hgz, hf2]

/-- Witness for C10 at a concrete input: an existing uncompressed .nii file
with no completed sibling is rejected with the argument type error. -/
theorem C10_witness :
    niiExt.isSuffixOf t1niiFix = true ∧
    fs0 t1niiFix = true ∧
    fs0 (t1niiFix ++ niigzExt) = false ∧
    isNIfTI fs0 t1niiFix = Except.error (errNotNiftiTxt ++ t1niiFix) := by
  have h := (C10_isNIfTI fs0 t1niiFix).2.2.2
  exact ⟨by decide, by decide, by decide, h (by decide) (by decide) (by decide)⟩

end Brainstem
